import Mathlib

/-!
# Verification of the wry-bindgen IPC core

A shallow embedding, in Lean 4, of the parts of the `wasm-bindgen-wry`
repository that its specification makes claims about:

* the biased receive loop of the call engine (`IPCReceivers::recv`,
  `src/wry-bindgen/src/runtime.rs`);
* the callback dispatcher (`handle_rust_callback`, same file);
* clone/drop of `JsValue` handles (`src/wry-bindgen/src/value.rs`);
* the inbound protocol handler (`ProtocolHandler::handle_request`,
  `src/wry-bindgen/src/wry.rs`) and the transport decoder
  (`decode_data`, `src/src/ipc.rs`);
* `run_on_main_thread` and the message queueing of `WryRuntime`
  (`src/wry-bindgen/src/runtime.rs`);
* the exported-object store (`src/wry-bindgen/src/object_store.rs`).

Machine integers are modelled as `Nat` with explicit reduction modulo
`2^32` where the source relies on wrapping arithmetic.  Fallible or
panicking code is modelled with `Option`/`Except`.  Imperative code is
modelled by explicit state passing; the callback dispatcher is also
modelled by the trace of events it emits.
-/

namespace WryBindgen

/-! ## Messages and the biased receiver (`runtime.rs`) -/

/-- The two frame types of the wire protocol (`MessageType` in
`wry-bindgen`): `Evaluate` carries work to perform, `Respond` carries the
answer to one outstanding call. -/
inductive MessageType where
  | evaluate
  | respond
deriving DecidableEq, Repr

/-- An IPC message: a frame type together with its (already stripped)
payload bytes.  Bytes are modelled as `Nat` values below 256. -/
structure IPCMessage where
  ty : MessageType
  payload : List Nat
deriving DecidableEq, Repr

/-- The two inbound queues owned by the call engine (`IPCReceivers` in
`runtime.rs`): `eval_receiver` holds inbound `Evaluate` frames,
`respond_receiver` holds inbound `Respond` frames.  Channels are modelled
as FIFO lists, head = oldest ready message. -/
structure IPCReceivers where
  evalReceiver : List IPCMessage
  respondReceiver : List IPCMessage
deriving DecidableEq, Repr

/-- `IPCReceivers::recv` (`runtime.rs` lines 108–125): a
`select_biased!` that polls `respond_receiver` first; only when no
response is ready does it poll `eval_receiver`.  `none` models a pending
(blocking) receive with both queues empty. -/
def IPCReceivers.recv (r : IPCReceivers) : Option (IPCMessage × IPCReceivers) :=
  match r.respondReceiver with
  | m :: rest => some (m, { r with respondReceiver := rest })
  | [] =>
    match r.evalReceiver with
    | m :: rest => some (m, { r with evalReceiver := rest })
    | [] => none

/-! ## `JsValue` clone and drop (`value.rs`) -/

/-- Offset for reserved JS value indices (`value.rs`). -/
def JSIDX_OFFSET : Nat := 128

/-- First usable heap ID; IDs below this are reserved constants
(`undefined`, `null`, `true`, `false`), so `JSIDX_RESERVED = 132`. -/
def JSIDX_RESERVED : Nat := JSIDX_OFFSET + 4

/-- Reserved function ID for cloning heap refs on the JS side. -/
def CLONE_HEAP_REF_FN_ID : Nat := 0xFFFFFFFE

/-- Reserved function ID for dropping heap refs on the JS side. -/
def DROP_HEAP_REF_FN_ID : Nat := 0xFFFFFFFF

/-- An opaque reference to a JavaScript heap object (`JsValue` in
`value.rs`): just its 64-bit heap index. -/
structure JsValue where
  idx : Nat
deriving DecidableEq, Repr

/-- Traffic sent to the JS side by clone/drop of a handle. -/
inductive HeapOp where
  | cloneHeap (id : Nat)
  | dropHeap (id : Nat)
deriving DecidableEq, Repr

/-- `impl Clone for JsValue` (`value.rs` lines 108–120): reserved values
are returned unchanged with no JS traffic; otherwise a `CloneHeap` call
is issued through `CLONE_HEAP_REF_FN_ID` and JS answers with a fresh id
(`newId` stands for the id JS allocates).  Returns the cloned value and
the list of operations sent to JS. -/
def JsValue.cloneImpl (v : JsValue) (newId : Nat) : JsValue × List HeapOp :=
  if v.idx < JSIDX_RESERVED then ({ idx := v.idx }, [])
  else ({ idx := newId }, [HeapOp.cloneHeap v.idx])

/-- `impl Drop for JsValue` (`value.rs` lines 122–133): reserved values
queue nothing; otherwise a `DropHeap` for the id is queued in the batch.
Returns the operations queued. -/
def JsValue.dropImpl (v : JsValue) : List HeapOp :=
  if v.idx < JSIDX_RESERVED then []
  else [HeapOp.dropHeap v.idx]

/-! ## The callback dispatcher (`handle_rust_callback`, `runtime.rs`)

Two complementary models.  The first records the *trace of events* the
dispatcher emits for an inbound user-callback invocation (`fn_id` 0), in
source order; the second models the callback-table access discipline
(clone the `Rc` out of the slotmap under a short-lived borrow, release
the borrow, then invoke). -/

/-- Events emitted by `handle_rust_callback` for `fn_id` 0, in the order
they appear in `runtime.rs` lines 332–364. -/
inductive RtEvent where
  /-- the `Rc` of the callable is cloned out of the slotmap -/
  | cloneRc
  /-- `BATCH_STATE.push_borrow_frame()` -/
  | pushFrame
  /-- the native callback starts executing -/
  | invokeStart
  /-- the native callback has returned -/
  | invokeEnd
  /-- `IPCMessage::new_respond` finished building the response -/
  | responseEncoded
  /-- `BATCH_STATE.pop_borrow_frame()` -/
  | popFrame
  /-- `runtime.js_response(response)` -/
  | sendResponse
deriving DecidableEq, Repr

/-- The event trace of `handle_rust_callback` for `fn_id = 0`
(`runtime.rs` lines 332–364): clone the `Rc`, push a borrow frame, invoke
the callback (whose own events are `cbEvents`), finish encoding the
response, pop the borrow frame, send the response.  The callback body is
abstract: `cbEvents` is whatever the user callback emits. -/
def handleRustCallbackTrace (cbEvents : List RtEvent) : List RtEvent :=
  [RtEvent.cloneRc, RtEvent.pushFrame, RtEvent.invokeStart] ++ cbEvents ++
    [RtEvent.invokeEnd, RtEvent.responseEncoded, RtEvent.popFrame, RtEvent.sendResponse]

/-! ### The callback table access (`THREAD_LOCAL_OBJECT_ENCODER`) -/

/-- The slotmap of native callables, keyed by `CallbackKey` (modelled as
`Nat`); the stored value is the identity of the `Rc`'d closure. -/
structure FnEncoder where
  functions : List (Nat × Nat)
deriving DecidableEq, Repr

/-- Slotmap lookup. -/
def FnEncoder.get (e : FnEncoder) (key : Nat) : Option Nat :=
  (e.functions.find? (fun p => p.1 = key)).map (fun p => p.2)

/-- The `RefCell` holding the encoder (`THREAD_LOCAL_OBJECT_ENCODER`),
with its borrow state: the number of live shared borrows and whether a
mutable borrow is live. -/
structure EncoderCell where
  enc : FnEncoder
  sharedBorrows : Nat
  mutBorrowed : Bool
deriving DecidableEq, Repr

/-- Failures of the dispatch path. -/
inductive DispatchError where
  /-- `RefCell::borrow` panicked: the cell was mutably borrowed -/
  | tableMutBorrowed
  /-- `RefCell::borrow_mut` panicked: the cell was already borrowed -/
  | tableBorrowed
  /-- `expect("Function not found for key")` panicked -/
  | keyNotFound
deriving DecidableEq, Repr

/-- The table-access phase of `handle_rust_callback` for `fn_id` 0
(`runtime.rs` lines 337–350): take a shared borrow of the cell, look the
key up, clone the `Rc` out, and release the borrow before the closure is
invoked.  Returns the cloned closure identity together with the cell
state in which the closure then runs — the borrow taken here is already
released, so that state is the input state unchanged. -/
def cloneCallbackOut (cell : EncoderCell) (key : Nat) :
    Except DispatchError (Nat × EncoderCell) :=
  if cell.mutBorrowed then Except.error DispatchError.tableMutBorrowed
  else
    match cell.enc.get key with
    | none => Except.error DispatchError.keyNotFound
    | some c => Except.ok (c, cell)

/-- `RefCell::borrow_mut` on the encoder cell followed by a slotmap
`insert`, as a nested callback would perform to register a new callback
(`fn_encoder.borrow_mut().functions.insert(...)`). -/
def EncoderCell.registerCallback (cell : EncoderCell) (key closure : Nat) :
    Except DispatchError EncoderCell :=
  if cell.sharedBorrows ≠ 0 ∨ cell.mutBorrowed then
    Except.error DispatchError.tableBorrowed
  else
    Except.ok { cell with enc := { functions := (key, closure) :: cell.enc.functions } }

/-- `RefCell::borrow_mut` on the encoder cell followed by a slotmap
`remove`, as the `DROP_NATIVE_REF_FN_ID` branch and nested callbacks
perform (`fn_encoder.borrow_mut().functions.remove(key)`). -/
def EncoderCell.removeCallback (cell : EncoderCell) (key : Nat) :
    Except DispatchError EncoderCell :=
  if cell.sharedBorrows ≠ 0 ∨ cell.mutBorrowed then
    Except.error DispatchError.tableBorrowed
  else
    Except.ok { cell with enc := { functions := cell.enc.functions.filter (fun p => p.1 ≠ key) } }

/-! ## The exported-object handle counter (`object_store.rs`) -/

/-- `2^32`, the modulus of the `u32` handle counter. -/
def U32_MOD : Nat := 4294967296

/-- The exported-object store's allocation state (`ObjEncoder` in
`object_store.rs`), reduced to the part `insert_object` touches: the
`next_handle` counter.  Kept as a `Nat` that is always `< 2^32`. -/
structure ObjEncoder where
  nextHandle : Nat
deriving DecidableEq, Repr

/-- `ObjEncoder::new` starts the handle counter at 1. -/
def ObjEncoder.new : ObjEncoder := { nextHandle := 1 }

/-- `ObjEncoder::insert_object` (`object_store.rs` lines 66–74): hands
out `next_handle`, then advances it by a wrapping `u32` increment,
replacing 0 by 1 after wrap-around.  Returns the issued handle and the
new state. -/
def ObjEncoder.insert_object (e : ObjEncoder) : Nat × ObjEncoder :=
  let handle := e.nextHandle
  let nh := (e.nextHandle + 1) % U32_MOD
  let nh := if nh = 0 then 1 else nh
  (handle, { nextHandle := nh })

/-- The store state after `k` insertions starting from a given state. -/
def ObjEncoder.iterate (e : ObjEncoder) : Nat → ObjEncoder
  | 0 => e
  | k + 1 => (ObjEncoder.iterate e k).insert_object.2

/-- The handle returned by the `(k+1)`-st call to `insert_object` on a
store that started as `ObjEncoder.new`. -/
def ObjEncoder.nthHandle (k : Nat) : Nat :=
  ((ObjEncoder.new.iterate k).insert_object).1

/-- `insert_object` never leaves the counter at 0. -/
theorem ObjEncoder.insert_object_nextHandle_ne_zero (e : ObjEncoder) :
    e.insert_object.2.nextHandle ≠ 0 := by
  unfold ObjEncoder.insert_object
  dsimp only
  split
  · simp
  · assumption

/-- After any number of insertions from the initial state the counter is
nonzero. -/
theorem ObjEncoder.iterate_nextHandle_ne_zero (k : Nat) :
    (ObjEncoder.new.iterate k).nextHandle ≠ 0 := by
  induction k with
  | zero => simp [ObjEncoder.iterate, ObjEncoder.new]
  | succ k _ =>
    rw [ObjEncoder.iterate]
    exact ObjEncoder.insert_object_nextHandle_ne_zero _

/-! ## Transport decoding and the protocol handler (`ipc.rs`, `wry.rs`) -/

/-- The value of one base64 symbol in the standard alphabet
(`base64::engine::general_purpose::STANDARD`); `none` for a byte outside
the alphabet. -/
def base64Val (c : Nat) : Option Nat :=
  if 65 ≤ c ∧ c ≤ 90 then some (c - 65)
  else if 97 ≤ c ∧ c ≤ 122 then some (c - 97 + 26)
  else if 48 ≤ c ∧ c ≤ 57 then some (c - 48 + 52)
  else if c = 43 then some 62
  else if c = 47 then some 63
  else none

/-- Standard padded base64 decoding (`engine.decode` in `decode_data`,
`src/src/ipc.rs` lines 18–25): the input is consumed in blocks of four
symbols, the last block may end in one or two `'='` (byte 61) padding
symbols, and any other shape — an invalid symbol, or a length that is
not a multiple of four — fails. -/
def base64Decode : List Nat → Option (List Nat)
  | [] => some []
  | c1 :: c2 :: c3 :: c4 :: rest =>
    match base64Val c1, base64Val c2 with
    | some v1, some v2 =>
      if c3 = 61 then
        if c4 = 61 ∧ rest = [] then some [v1 * 4 + v2 / 16]
        else none
      else
        match base64Val c3 with
        | some v3 =>
          if c4 = 61 then
            if rest = [] then some [v1 * 4 + v2 / 16, (v2 % 16) * 16 + v3 / 4]
            else none
          else
            match base64Val c4 with
            | some v4 =>
              (base64Decode rest).map
                (fun tail =>
                  (v1 * 4 + v2 / 16) :: ((v2 % 16) * 16 + v3 / 4) ::
                    ((v3 % 4) * 64 + v4) :: tail)
            | none => none
        | none => none
    | _, _ => none
  | _ => none

/-- Modelled from the spec: the top-level frame layout of the binary
protocol (`crate::ipc` of `wry-bindgen` is not in the sources; spec §6
gives `[u8 frame_type] (0 = Evaluate, 1 = Respond)` followed by the
operations).  Any other first byte, or an empty frame, is malformed. -/
def parseFrame (bytes : List Nat) : Option IPCMessage :=
  match bytes with
  | [] => none
  | b :: rest =>
    if b = 0 then some { ty := MessageType.evaluate, payload := rest }
    else if b = 1 then some { ty := MessageType.respond, payload := rest }
    else none

/-- `decode_data` (`src/src/ipc.rs` lines 18–25, and the missing
`crate::ipc::decode_data` called by `wry.rs`): decode the base64
envelope, then parse the frame; either failure yields `none`. -/
def decode_data (bytes : List Nat) : Option IPCMessage :=
  (base64Decode bytes).bind parseFrame

/-- The per-webview handler state used by `ProtocolHandler::handle_request`
(`WebviewState` in `wry.rs`), reduced to the fields the `handler` branch
reads and writes. -/
structure WebviewState where
  ongoingRequest : Bool
  pendingJsEvaluates : Nat
  pendingRustEvaluates : Nat
deriving DecidableEq, Repr

/-- What the `"__wbg__/handler"` branch of `handle_request` does with an
inbound request. -/
inductive HandlerOutcome where
  /-- `error_response()` (HTTP 400) was returned to the sender -/
  | respondError
  /-- a `panic!` was reached -/
  | panicked
  /-- the message was forwarded to the engine via `sender.start_send`;
  `respondedBlank` records whether `blank_response()` was sent at once -/
  | forwarded (m : IPCMessage) (st : WebviewState) (respondedBlank : Bool)
deriving DecidableEq, Repr

/-- The `"__wbg__/handler"` branch of `ProtocolHandler::handle_request`
(`wry.rs` lines 264–300): an unknown webview id or a frame that fails
`decode_data` is answered with `error_response()`; an `Evaluate` frame
bumps `pending_rust_evaluates` and parks the responder
(`set_ongoing_request` panics if one is already parked); a `Respond`
frame decrements `pending_js_evaluates` (saturating) and either parks
the responder or answers with `blank_response()`. -/
def handle_request_handler (st : Option WebviewState) (header : List Nat) :
    HandlerOutcome :=
  match st with
  | none => HandlerOutcome.respondError
  | some ws =>
    match decode_data header with
    | none => HandlerOutcome.respondError
    | some msg =>
      match msg.ty with
      | MessageType.evaluate =>
        if ws.ongoingRequest then HandlerOutcome.panicked
        else
          HandlerOutcome.forwarded msg
            { ws with
                pendingRustEvaluates := ws.pendingRustEvaluates + 1
                ongoingRequest := true } false
      | MessageType.respond =>
        let pj := ws.pendingJsEvaluates - 1
        if 0 < ws.pendingRustEvaluates ∨ 0 < pj then
          if ws.ongoingRequest then HandlerOutcome.panicked
          else
            HandlerOutcome.forwarded msg
              { ws with pendingJsEvaluates := pj, ongoingRequest := true } false
        else
          HandlerOutcome.forwarded msg
            { ws with pendingJsEvaluates := pj } true

/-! ## Parking decode and export dispatch asserts (`runtime.rs`) -/

/-- The fatal failures of the engine's decode paths. -/
inductive EngineFailure where
  /-- `expect("Failed to decode return value")` panicked -/
  | decodeFailed
  /-- `assert!(data.is_empty(), ..)` failed: trailing bytes remained -/
  | trailingData
  /-- `panic!("Export call failed: ..")` -/
  | exportCallFailed
deriving DecidableEq, Repr

/-- The decode step of `wait_for_js_event` (`runtime.rs` lines 280–290):
decode the return value from the `Respond` payload with the signature's
decoder, panic if decoding fails, then assert that no bytes remain. -/
def wait_for_js_event_decode {α : Type}
    (decode : List Nat → Option (α × List Nat)) (payload : List Nat) :
    Except EngineFailure α :=
  match decode payload with
  | none => Except.error EngineFailure.decodeFailed
  | some (r, rest) =>
    if rest = [] then Except.ok r else Except.error EngineFailure.trailingData

/-- The `CALL_EXPORT_FN_ID` branch of `handle_rust_callback`
(`runtime.rs` lines 380–405): run the export handler over the argument
bytes (it consumes what it decodes and returns the encoded result),
panic if the handler fails, then assert that no argument bytes remain. -/
def call_export_step
    (handler : List Nat → Option (List Nat × List Nat)) (payload : List Nat) :
    Except EngineFailure (List Nat) :=
  match handler payload with
  | none => Except.error EngineFailure.exportCallFailed
  | some (encoded, rest) =>
    if rest = [] then Except.ok encoded
    else Except.error EngineFailure.trailingData

/-- Modelled from the spec: the wire codec's little-endian `u64` decode
(§4.1; `crate::encode` of `wry-bindgen` is not in the sources).  Consumes
eight bytes, returning the value and the remaining bytes. -/
def decodeU64LE (bytes : List Nat) : Option (Nat × List Nat) :=
  match bytes with
  | b0 :: b1 :: b2 :: b3 :: b4 :: b5 :: b6 :: b7 :: rest =>
    some (b0 + 256 * (b1 + 256 * (b2 + 256 * (b3 + 256 * (b4 + 256 *
      (b5 + 256 * (b6 + 256 * b7)))))), rest)
  | _ => none

/-! ## `run_on_main_thread` (`runtime.rs`) -/

/-- Whether `run_on_main_thread` ran the closure inline or posted it to
the event pump. -/
inductive RunPath where
  | inline
  | posted
deriving DecidableEq, Repr

/-- The oneshot channel completed by the main thread
(`futures_channel::oneshot`): its slot is filled by `send`. -/
structure Oneshot (α : Type) where
  slot : Option α

/-- A task posted to the event pump (`MainThreadTask` in `runtime.rs`),
holding the boxed closure. -/
structure MainThreadTask (α : Type) where
  task : Unit → α

/-- `MainThreadTask::execute` (`runtime.rs` lines 49–54): run the task on
the main thread and send its result through the completion channel. -/
def MainThreadTask.execute {α : Type} (t : MainThreadTask α) : Oneshot α :=
  { slot := some (t.task ()) }

/-- `run_on_main_thread` (`runtime.rs` lines 223–245): when the caller is
the main thread, execute the closure inline; otherwise wrap it in a
`MainThreadTask`, post it to the event pump, and block on the oneshot
receiver until the main thread has executed the task, panicking
(`expect`) if the channel closes without a value. -/
def run_on_main_thread {α : Type} (isMainThread : Bool) (f : Unit → α) :
    Except String (α × RunPath) :=
  if isMainThread then Except.ok (f (), RunPath.inline)
  else
    let task : MainThreadTask α := { task := fun _ => f () }
    match task.execute.slot with
    | some r => Except.ok (r, RunPath.posted)
    | none => Except.error "Main thread did not complete the task"

/-! ## The exported-object store's borrow discipline (`object_store.rs`) -/

/-- The borrow state of one per-entry `RefCell` in the object store:
the number of live shared borrows and whether a mutable borrow is
live. -/
structure ObjCell where
  shared : Nat
  mutB : Bool
deriving DecidableEq, Repr

/-- A free cell: no live borrows. -/
def ObjCell.free : ObjCell := { shared := 0, mutB := false }

/-- The object store (`OBJECT_STORE` in `object_store.rs`): each
exported object is individually wrapped in a `RefCell` (its entry's
`ObjCell` tracks that cell's borrows), and the store itself lives in an
outer `RefCell` whose borrows are tracked by `storeShared`/`storeMut`. -/
structure ObjStore where
  entries : Nat → Option ObjCell
  storeShared : Nat
  storeMut : Bool

/-- Replace the cell state of entry `h`. -/
def ObjStore.setCell (s : ObjStore) (h : Nat) (c : ObjCell) : ObjStore :=
  { s with entries := fun h' => if h' = h then some c else s.entries h' }

/-- Runtime borrow failures of the object store. -/
inductive BorrowPanic where
  /-- `expect("invalid handle")` panicked -/
  | invalidHandle
  /-- the per-entry `RefCell`'s `borrow`/`borrow_mut` panicked -/
  | cellBorrowError
  /-- the store-level `RefCell`'s `borrow` panicked -/
  | storeBorrowError
deriving DecidableEq, Repr

/-- Nested accesses to the object store, as performed (transitively) by
the closure passed to `with_object`/`with_object_mut`. -/
inductive ObjProg where
  | skip
  | seq (a b : ObjProg)
  | withObjMut (h : Nat) (inner : ObjProg)
  | withObj (h : Nat) (inner : ObjProg)

/-- Run a nest of `with_object`/`with_object_mut` calls
(`object_store.rs` lines 107–121 plus `get_object`/`get_object_mut`,
lines 77–88): each call takes a shared borrow of the store's outer
`RefCell` (`encoder.borrow()`), looks the handle up (`expect("invalid
handle")`), borrows the entry's own `RefCell` — mutably for
`with_object_mut`, which panics if the cell has any live borrow, shared
for `with_object`, which panics if the cell is mutably borrowed — runs
the closure `inner`, then releases the cell borrow and the store
borrow. -/
def ObjProg.run : ObjProg → ObjStore → Except BorrowPanic ObjStore
  | ObjProg.skip, s => Except.ok s
  | ObjProg.seq a b, s => (a.run s).bind b.run
  | ObjProg.withObjMut h inner, s =>
    if s.storeMut then Except.error BorrowPanic.storeBorrowError
    else
      let s1 : ObjStore := { s with storeShared := s.storeShared + 1 }
      match s1.entries h with
      | none => Except.error BorrowPanic.invalidHandle
      | some c =>
        if c.shared ≠ 0 ∨ c.mutB then Except.error BorrowPanic.cellBorrowError
        else
          (inner.run (s1.setCell h { c with mutB := true })).bind fun s3 =>
            match s3.entries h with
            | none => Except.error BorrowPanic.invalidHandle
            | some c3 =>
              Except.ok
                { s3.setCell h { c3 with mutB := false } with
                    storeShared := s3.storeShared - 1 }
  | ObjProg.withObj h inner, s =>
    if s.storeMut then Except.error BorrowPanic.storeBorrowError
    else
      let s1 : ObjStore := { s with storeShared := s.storeShared + 1 }
      match s1.entries h with
      | none => Except.error BorrowPanic.invalidHandle
      | some c =>
        if c.mutB then Except.error BorrowPanic.cellBorrowError
        else
          (inner.run (s1.setCell h { c with shared := c.shared + 1 })).bind fun s3 =>
            match s3.entries h with
            | none => Except.error BorrowPanic.invalidHandle
            | some c3 =>
              Except.ok
                { s3.setCell h { c3 with shared := c3.shared - 1 } with
                    storeShared := s3.storeShared - 1 }

/-! ## Message queueing before the sender is installed (`runtime.rs`) -/

/-- The queueing state of `WryRuntime` restricted to what
`queue_rust_call`/`set_sender` touch: the `queued_rust_calls` buffer,
whether the `OnceLock` sender is installed, and the list of messages
handed to `start_send` so far, in order.  Messages are identified by
`Nat` tags. -/
structure RtQueueState where
  queued : List Nat
  senderSet : Bool
  sent : List Nat
deriving DecidableEq, Repr

/-- The state at `WryRuntime::new`: nothing queued, no sender. -/
def RtQueueState.init : RtQueueState :=
  { queued := [], senderSet := false, sent := [] }

/-- `WryRuntime::queue_rust_call` (`runtime.rs` lines 157–164): if the
sender is installed, `start_send` the message at once; otherwise push it
onto `queued_rust_calls`. -/
def queue_rust_call (s : RtQueueState) (m : Nat) : RtQueueState :=
  if s.senderSet then { s with sent := s.sent ++ [m] }
  else { s with queued := s.queued ++ [m] }

/-- `WryRuntime::set_sender` (`runtime.rs` lines 166–176): panics if a
sender is already installed; otherwise installs it and drains
`queued_rust_calls` in order through `start_send`. -/
def set_sender (s : RtQueueState) : Except String RtQueueState :=
  if s.senderSet then Except.error "Sender already set"
  else Except.ok { queued := [], senderSet := true, sent := s.sent ++ s.queued }

/-- One interaction with the runtime's queue. -/
inductive QEvent where
  | enqueue (m : Nat)
  | installSender
deriving DecidableEq, Repr

/-- Run a sequence of queue interactions. -/
def runQueueEvents : List QEvent → RtQueueState → Except String RtQueueState
  | [], s => Except.ok s
  | QEvent.enqueue m :: rest, s => runQueueEvents rest (queue_rust_call s m)
  | QEvent.installSender :: rest, s => (set_sender s).bind (runQueueEvents rest)

/-- The messages enqueued by a sequence of interactions, in order. -/
def msgsOf (evts : List QEvent) : List Nat :=
  evts.filterMap fun e =>
    match e with
    | QEvent.enqueue m => some m
    | QEvent.installSender => none

/-- The queueing invariant: messages are never lost or reordered —
`sent ++ queued` always lists every enqueued message once, in order —
and once the sender is installed the buffer stays empty and everything
goes straight to `sent`. -/
theorem runQueueEvents_invariant (evts : List QEvent) :
    ∀ s s', runQueueEvents evts s = Except.ok s' →
      (s.senderSet = true → s.queued = []) →
      s'.sent ++ s'.queued = s.sent ++ s.queued ++ msgsOf evts ∧
        (s'.senderSet = true → s'.queued = []) ∧
        (QEvent.installSender ∈ evts ∨ s.senderSet = true →
          s'.senderSet = true) := by
  induction evts with
  | nil =>
    intro s s' hok hpre
    simp only [runQueueEvents] at hok
    cases hok
    exact ⟨by simp [msgsOf], hpre, fun hc => by
      rcases hc with hc | hc
      · cases hc
      · exact hc⟩
  | cons e rest ih =>
    intro s s' hok hpre
    cases e with
    | enqueue m =>
      simp only [runQueueEvents] at hok
      by_cases hset : s.senderSet = true
      · have hq : s.queued = [] := hpre hset
        have hstep : queue_rust_call s m = { s with sent := s.sent ++ [m] } := by
          unfold queue_rust_call
          rw [if_pos hset]
        rw [hstep] at hok
        obtain ⟨h1, h2, h3⟩ := ih _ _ hok (fun _ => hq)
        refine ⟨?_, h2, fun _ => h3 (Or.inr hset)⟩
        rw [h1]
        simp [msgsOf, hq]
      · have hstep : queue_rust_call s m = { s with queued := s.queued ++ [m] } := by
          unfold queue_rust_call
          rw [if_neg hset]
        rw [hstep] at hok
        obtain ⟨h1, h2, h3⟩ := ih _ _ hok (by simp_all)
        refine ⟨?_, h2, fun hc => ?_⟩
        · rw [h1]
          simp [msgsOf]
        · refine h3 ?_
          rcases hc with hc | hc
          · rcases List.mem_cons.mp hc with hc | hc
            · cases hc
            · exact Or.inl hc
          · exact absurd hc hset
    | installSender =>
      simp only [runQueueEvents] at hok
      by_cases hset : s.senderSet = true
      · rw [set_sender, if_pos hset] at hok
        cases hok
      · rw [set_sender, if_neg hset] at hok
        simp only [Except.bind] at hok
        obtain ⟨h1, h2, h3⟩ := ih _ _ hok (fun _ => rfl)
        refine ⟨?_, h2, fun _ => h3 (Or.inr rfl)⟩
        rw [h1]
        simp [msgsOf]

/-! ## Theorems for the claims settled so far -/

/-- C1: while the call engine is parked, every receive cycle polls the
respond queue before the evaluate queue — whenever a `Respond` message
and an `Evaluate` message are both ready, `recv` consumes and returns the
`Respond` message, leaving the evaluate queue untouched. -/
theorem recv_biased_respond_first (r : IPCReceivers)
    (m : IPCMessage) (rest : List IPCMessage)
    (hr : r.respondReceiver = m :: rest)
    (he : r.evalReceiver ≠ []) :
    r.recv = some (m, { r with respondReceiver := rest }) ∧
      (r.recv.map (fun p => p.2.evalReceiver)) = some r.evalReceiver := by
  unfold IPCReceivers.recv
  rw [hr]
  exact ⟨rfl, rfl⟩

/-- Witness for `recv_biased_respond_first` at a concrete receiver state
with one message ready in each queue. -/
theorem recv_biased_respond_first_witness :
    let rMsg : IPCMessage := { ty := MessageType.respond, payload := [1] }
    let eMsg : IPCMessage := { ty := MessageType.evaluate, payload := [2] }
    let r : IPCReceivers := { evalReceiver := [eMsg], respondReceiver := [rMsg] }
    r.recv = some (rMsg, { r with respondReceiver := [] }) ∧
      (r.recv.map (fun p => p.2.evalReceiver)) = some r.evalReceiver := by
  exact recv_biased_respond_first _ _ _ rfl (by decide)

/-- C2: for an inbound user-callback invocation (`fn_id` 0) the
dispatcher pushes a fresh borrow frame before invoking the native
callback and pops that frame only after the callback has returned and
its response is encoded; the dispatcher's push/pop pair brackets exactly
one callback execution.  The hypotheses restrict to a callback that does
not itself push or pop frames or dispatch further callbacks (for nested
callbacks the inner events belong to the inner dispatch). -/
theorem borrow_frame_brackets_callback (cb : List RtEvent)
    (hpush : RtEvent.pushFrame ∉ cb) (hpop : RtEvent.popFrame ∉ cb)
    (hinv : RtEvent.invokeStart ∉ cb) :
    ∃ pre post,
      handleRustCallbackTrace cb =
        pre ++ [RtEvent.invokeStart] ++ cb ++
          [RtEvent.invokeEnd, RtEvent.responseEncoded] ++ post ∧
      pre.count RtEvent.pushFrame = 1 ∧
      pre.count RtEvent.popFrame = 0 ∧
      post.count RtEvent.popFrame = 1 ∧
      post.count RtEvent.pushFrame = 0 ∧
      (handleRustCallbackTrace cb).count RtEvent.pushFrame = 1 ∧
      (handleRustCallbackTrace cb).count RtEvent.popFrame = 1 ∧
      (handleRustCallbackTrace cb).count RtEvent.invokeStart = 1 := by
  refine ⟨[RtEvent.cloneRc, RtEvent.pushFrame], [RtEvent.popFrame, RtEvent.sendResponse],
    ?_, ?_, ?_, ?_, ?_, ?_, ?_, ?_⟩
  · simp [handleRustCallbackTrace]
  · decide
  · decide
  · decide
  · decide
  · simp [handleRustCallbackTrace, List.count_append, List.count_eq_zero.mpr hpush]
  · simp [handleRustCallbackTrace, List.count_append, List.count_eq_zero.mpr hpop]
  · simp [handleRustCallbackTrace, List.count_append, List.count_eq_zero.mpr hinv]

/-- Witness for `borrow_frame_brackets_callback`: a callback that only
clones an `Rc` (no frame traffic of its own). -/
theorem borrow_frame_brackets_callback_witness :
    ∃ pre post,
      handleRustCallbackTrace [RtEvent.cloneRc] =
        pre ++ [RtEvent.invokeStart] ++ [RtEvent.cloneRc] ++
          [RtEvent.invokeEnd, RtEvent.responseEncoded] ++ post ∧
      pre.count RtEvent.pushFrame = 1 ∧
      pre.count RtEvent.popFrame = 0 ∧
      post.count RtEvent.popFrame = 1 ∧
      post.count RtEvent.pushFrame = 0 ∧
      (handleRustCallbackTrace [RtEvent.cloneRc]).count RtEvent.pushFrame = 1 ∧
      (handleRustCallbackTrace [RtEvent.cloneRc]).count RtEvent.popFrame = 1 ∧
      (handleRustCallbackTrace [RtEvent.cloneRc]).count RtEvent.invokeStart = 1 :=
  borrow_frame_brackets_callback [RtEvent.cloneRc]
    (by decide) (by decide) (by decide)

/-- C3: the dispatcher clones the callable's owning `Rc` out of the
callback table and releases the table borrow before invoking the
closure.  During the callback's execution the table is not borrowed: the
callback can register new callbacks, remove callbacks, and re-entering
the same key whose callback is already executing succeeds. -/
theorem dispatch_releases_borrow_and_reenters
    (cell : EncoderCell) (key c k2 c2 : Nat)
    (hm : cell.mutBorrowed = false)
    (hs : cell.sharedBorrows = 0)
    (hl : cell.enc.get key = some c) :
    ∃ cellDuring,
      cloneCallbackOut cell key = Except.ok (c, cellDuring) ∧
      cellDuring.sharedBorrows = 0 ∧
      cellDuring.mutBorrowed = false ∧
      (cellDuring.registerCallback k2 c2).isOk = true ∧
      (cellDuring.removeCallback k2).isOk = true ∧
      cloneCallbackOut cellDuring key = Except.ok (c, cellDuring) := by
  refine ⟨cell, ?_, hs, hm, ?_, ?_, ?_⟩
  · unfold cloneCallbackOut
    rw [hm, hl]
    rfl
  · unfold EncoderCell.registerCallback
    rw [if_neg (by simp [hs, hm])]
    rfl
  · unfold EncoderCell.removeCallback
    rw [if_neg (by simp [hs, hm])]
    rfl
  · unfold cloneCallbackOut
    rw [hm, hl]
    rfl

/-- Witness for `dispatch_releases_borrow_and_reenters`: a table holding
one callback under key 5 whose closure identity is 77. -/
theorem dispatch_releases_borrow_and_reenters_witness :
    let cell : EncoderCell :=
      { enc := { functions := [(5, 77)] }, sharedBorrows := 0, mutBorrowed := false }
    ∃ cellDuring,
      cloneCallbackOut cell 5 = Except.ok (77, cellDuring) ∧
      cellDuring.sharedBorrows = 0 ∧
      cellDuring.mutBorrowed = false ∧
      (cellDuring.registerCallback 9 3).isOk = true ∧
      (cellDuring.removeCallback 9).isOk = true ∧
      cloneCallbackOut cellDuring 5 = Except.ok (77, cellDuring) :=
  dispatch_releases_borrow_and_reenters _ 5 77 9 3 rfl rfl (by decide)

/-- C4: reserved heap ids are never cloned or dropped by the native side.
For every `JsValue` with id below the reserved threshold 132, clone
returns the identical id and issues no JS traffic, and drop queues
nothing; for ids at or above 132, clone issues exactly one `CloneHeap`
call and drop queues exactly one `DropHeap`. -/
theorem reserved_ids_no_clone_drop_traffic (v : JsValue) (newId : Nat) :
    (v.idx < 132 →
      v.cloneImpl newId = ({ idx := v.idx }, []) ∧ v.dropImpl = []) ∧
    (132 ≤ v.idx →
      v.cloneImpl newId = ({ idx := newId }, [HeapOp.cloneHeap v.idx]) ∧
        v.dropImpl = [HeapOp.dropHeap v.idx]) := by
  constructor
  · intro h
    have h' : v.idx < JSIDX_RESERVED := h
    constructor
    · unfold JsValue.cloneImpl
      rw [if_pos h']
    · unfold JsValue.dropImpl
      rw [if_pos h']
  · intro h
    have h' : ¬ v.idx < JSIDX_RESERVED := by
      simp only [JSIDX_RESERVED, JSIDX_OFFSET]
      omega
    constructor
    · unfold JsValue.cloneImpl
      rw [if_neg h']
    · unfold JsValue.dropImpl
      rw [if_neg h']

/-- Witness for `reserved_ids_no_clone_drop_traffic`: the `false`
constant (id 131) generates no traffic, while the first owned id 132
does. -/
theorem reserved_ids_no_clone_drop_traffic_witness :
    ((131 : Nat) < 132 →
      JsValue.cloneImpl { idx := 131 } 500 = ({ idx := 131 }, []) ∧
        JsValue.dropImpl { idx := 131 } = []) ∧
    ((132 : Nat) ≤ 132 →
      JsValue.cloneImpl { idx := 132 } 500 =
          ({ idx := 500 }, [HeapOp.cloneHeap 132]) ∧
        JsValue.dropImpl { idx := 132 } = [HeapOp.dropHeap 132]) := by
  refine ⟨fun _ => ?_, fun _ => ?_⟩
  · exact (reserved_ids_no_clone_drop_traffic { idx := 131 } 500).1 (by decide)
  · exact (reserved_ids_no_clone_drop_traffic { idx := 132 } 500).2 (by decide)

/-- C5 counterexample: the inbound byte sequence `"!!!"` (bytes
`[33, 33, 33]`) fails to decode, yet the engine does not panic — the
`handler` branch of `handle_request` answers it with `error_response()`
(HTTP 400), an error value returned to the sender. -/
theorem decode_error_answered_counterexample :
    decode_data [33, 33, 33] = none ∧
    handle_request_handler
        (some { ongoingRequest := false, pendingJsEvaluates := 0,
                pendingRustEvaluates := 0 }) [33, 33, 33] =
      HandlerOutcome.respondError ∧
    HandlerOutcome.respondError ≠ HandlerOutcome.panicked := by
  decide

/-- C5 amended: an inbound frame that fails to decode (invalid base64 or
malformed payload) is answered with an HTTP 400 `error_response()` to
the sender; the frame is discarded — it is neither forwarded to the
engine nor does the handler panic. -/
theorem decode_error_yields_error_response (ws : WebviewState)
    (header : List Nat) (h : decode_data header = none) :
    handle_request_handler (some ws) header = HandlerOutcome.respondError := by
  unfold handle_request_handler
  rw [h]

/-- Witness for `decode_error_yields_error_response` at the concrete
undecodable input `"!!!"`. -/
theorem decode_error_yields_error_response_witness :
    handle_request_handler
        (some { ongoingRequest := false, pendingJsEvaluates := 0,
                pendingRustEvaluates := 0 }) [33, 33, 33] =
      HandlerOutcome.respondError :=
  decode_error_yields_error_response _ _ (by decide)

/-- C6: `run_on_main_thread f` executes `f` inline and returns its
result when the caller is already the main thread; from any other
thread it posts the closure to the event pump as a `MainThreadTask`,
whose execution on the main thread completes the oneshot channel with
the closure's result, which is what the blocked caller receives. -/
theorem run_on_main_thread_result {α : Type} (f : Unit → α) :
    run_on_main_thread true f = Except.ok (f (), RunPath.inline) ∧
    run_on_main_thread false f = Except.ok (f (), RunPath.posted) :=
  ⟨rfl, rfl⟩

/-- C7: after decoding a top-level response value — and after running an
export call's handler over its argument bytes — the engine asserts that
no bytes remain: whenever the decoder (or the export handler) leaves
trailing bytes, the step fails the assertion instead of silently
ignoring the extra data. -/
theorem trailing_bytes_fail_assertion {α : Type}
    (decode : List Nat → Option (α × List Nat)) (payload : List Nat)
    (r : α) (rest : List Nat)
    (h1 : decode payload = some (r, rest)) (h2 : rest ≠ [])
    (handler : List Nat → Option (List Nat × List Nat))
    (payload2 res rest2 : List Nat)
    (h3 : handler payload2 = some (res, rest2)) (h4 : rest2 ≠ []) :
    wait_for_js_event_decode decode payload =
        Except.error EngineFailure.trailingData ∧
    call_export_step handler payload2 =
        Except.error EngineFailure.trailingData := by
  constructor
  · unfold wait_for_js_event_decode
    rw [h1]
    exact if_neg h2
  · unfold call_export_step
    rw [h3]
    exact if_neg h4

/-- Witness for `trailing_bytes_fail_assertion`: a `Respond` payload of
eight zero bytes (a `u64`) followed by one trailing byte, and an export
handler that consumes one byte of a two-byte argument buffer. -/
theorem trailing_bytes_fail_assertion_witness :
    wait_for_js_event_decode decodeU64LE [0, 0, 0, 0, 0, 0, 0, 0, 7] =
        Except.error EngineFailure.trailingData ∧
    call_export_step (fun p => some (p.take 1, p.drop 1)) [1, 2] =
        Except.error EngineFailure.trailingData :=
  trailing_bytes_fail_assertion decodeU64LE _ 0 [7] (by decide) (by decide)
    (fun p => some (p.take 1, p.drop 1)) [1, 2] [1] [2] rfl (by decide)

/-- C10: the exported-object store never issues handle 0.  `next_handle`
starts at 1, every handle returned by any sequence of `insert_object`
calls is nonzero, and on wrap-around of the `u32` counter the state
after handing out handle `2^32 - 1` resumes at 1, skipping 0. -/
theorem insert_object_never_issues_zero :
    ObjEncoder.new.nextHandle = 1 ∧
    (∀ k, ObjEncoder.nthHandle k ≠ 0) ∧
    ObjEncoder.insert_object { nextHandle := 4294967295 } =
      (4294967295, { nextHandle := 1 }) := by
  refine ⟨rfl, fun k => ?_, ?_⟩
  · unfold ObjEncoder.nthHandle ObjEncoder.insert_object
    exact ObjEncoder.iterate_nextHandle_ne_zero k
  · rfl

/-- Witness for `insert_object_never_issues_zero`: the very first handle
issued is 1, not 0. -/
theorem insert_object_never_issues_zero_witness :
    ObjEncoder.nthHandle 0 = 1 ∧ ObjEncoder.nthHandle 0 ≠ 0 :=
  ⟨rfl, insert_object_never_issues_zero.2.1 0⟩

/-- C8: exported objects sit in per-entry interior-mutable cells, and
re-entering the same exported object's mutable borrow is a runtime
error: nesting `with_object_mut` (or `with_object`) on the same handle
inside `with_object_mut` panics with a cell borrow error, while nested
mutable borrows of two distinct handles succeed. -/
theorem with_object_mut_reentrancy (s : ObjStore) (h1 h2 : Nat)
    (hms : s.storeMut = false)
    (hc1 : s.entries h1 = some ObjCell.free)
    (hc2 : s.entries h2 = some ObjCell.free)
    (hne : h1 ≠ h2) :
    (ObjProg.withObjMut h1 (ObjProg.withObjMut h1 ObjProg.skip)).run s =
        Except.error BorrowPanic.cellBorrowError ∧
    (ObjProg.withObjMut h1 (ObjProg.withObj h1 ObjProg.skip)).run s =
        Except.error BorrowPanic.cellBorrowError ∧
    ((ObjProg.withObjMut h1 (ObjProg.withObjMut h2 ObjProg.skip)).run s).isOk =
        true := by
  have hne' : ¬ (h2 = h1) := fun h => hne h.symm
  refine ⟨?_, ?_, ?_⟩
  · simp [ObjProg.run, hms, hc1, ObjStore.setCell, ObjCell.free, Except.bind]
  · simp [ObjProg.run, hms, hc1, ObjStore.setCell, ObjCell.free, Except.bind]
  · simp [ObjProg.run, hms, hc1, hc2, ObjStore.setCell, ObjCell.free, hne,
      hne', Except.bind, Except.isOk, Except.toBool]

/-- Witness for `with_object_mut_reentrancy`: a store holding two free
entries at handles 1 and 2. -/
theorem with_object_mut_reentrancy_witness :
    let s : ObjStore :=
      { entries := fun h => if h = 1 ∨ h = 2 then some ObjCell.free else none
        storeShared := 0
        storeMut := false }
    (ObjProg.withObjMut 1 (ObjProg.withObjMut 1 ObjProg.skip)).run s =
        Except.error BorrowPanic.cellBorrowError ∧
    (ObjProg.withObjMut 1 (ObjProg.withObj 1 ObjProg.skip)).run s =
        Except.error BorrowPanic.cellBorrowError ∧
    ((ObjProg.withObjMut 1 (ObjProg.withObjMut 2 ObjProg.skip)).run s).isOk =
        true :=
  with_object_mut_reentrancy _ 1 2 rfl (by decide) (by decide) (by decide)

/-- C9: messages passed to `queue_rust_call` before a sender is
installed are buffered and, at `set_sender`, forwarded exactly once in
FIFO order; messages passed afterwards are forwarded immediately — over
any interaction sequence containing the installation that completes
without panic, the forwarded list is exactly the enqueued messages in
order and the buffer ends empty. -/
theorem queue_rust_call_fifo_across_install (evts : List QEvent)
    (s' : RtQueueState)
    (hok : runQueueEvents evts RtQueueState.init = Except.ok s')
    (hin : QEvent.installSender ∈ evts) :
    s'.sent = msgsOf evts ∧ s'.queued = [] := by
  obtain ⟨h1, h2, h3⟩ :=
    runQueueEvents_invariant evts RtQueueState.init s' hok
      (fun h => by simp [RtQueueState.init] at h)
  have hset : s'.senderSet = true := h3 (Or.inl hin)
  have hq : s'.queued = [] := h2 hset
  rw [hq] at h1
  simp only [RtQueueState.init, List.append_nil, List.nil_append] at h1
  exact ⟨h1, hq⟩

/-- Witness for `queue_rust_call_fifo_across_install`: two messages
queued before the sender is installed and one after are all forwarded,
in order. -/
theorem queue_rust_call_fifo_across_install_witness :
    ({ queued := [], senderSet := true, sent := [10, 20, 30] } :
        RtQueueState).sent =
      msgsOf [QEvent.enqueue 10, QEvent.enqueue 20, QEvent.installSender,
        QEvent.enqueue 30] ∧
    ({ queued := [], senderSet := true, sent := [10, 20, 30] } :
        RtQueueState).queued = [] :=
  queue_rust_call_fifo_across_install
    [QEvent.enqueue 10, QEvent.enqueue 20, QEvent.installSender,
      QEvent.enqueue 30] _ rfl (by decide)

end WryBindgen
